import Mathlib

/-!
Verification development for the Gig Buddy repository.

This file gives a shallow embedding, in Lean 4, of the authentication,
authorization and ownership-enforcement core of the Gig Buddy code base:

* the JWT middleware of the shared middleware module
  (authenticateToken, requireAdmin, requireOwnership, optionalAuth);
* the auth route handlers (register, login, me) of the completed auth
  route draft;
* the database helper executeTransaction of the database configuration
  module;
* the draft route module's local authenticateToken placeholder.

JavaScript-specific behaviour (truthiness, the logical-or fallback,
parseInt, header splitting on spaces) is modelled explicitly.  External
library functions (jsonwebtoken sign/verify, bcrypt hash/compare, the
express-validator checks) are modelled by idealized executable functions
that reproduce the behaviour the code relies on; in particular
jsonwebtoken verifies the signature before it checks the expiry claim,
so TokenExpiredError is only ever reported for a token whose signature
verified.
-/

namespace GigBuddy

/-! ## JavaScript primitives -/

/-- Truthiness of an optional string value: undefined and the empty
string are falsy, every other string is truthy. -/
def truthyStr : Option String → Bool
  | none => false
  | some s => !(s == "")

/-- The JavaScript expression a or-else b on optional string values:
yields a when a is truthy, otherwise b. -/
def jsOrStr (a b : Option String) : Option String :=
  if truthyStr a then a else b

/-- Splitting of a character list at every occurrence of a separator
character, as JavaScript string split does on a one-character
separator (adjacent separators yield empty parts). -/
def splitCharAux (sep : Char) : List Char → List Char → List String
  | [], acc => [String.mk acc.reverse]
  | c :: cs, acc =>
    if c == sep then String.mk acc.reverse :: splitCharAux sep cs []
    else splitCharAux sep cs (c :: acc)

/-- JavaScript s.split(sep) for a one-character separator. -/
def jsSplit (sep : Char) (s : String) : List String :=
  splitCharAux sep s.toList []

/-- Whitespace trimming at both ends of a string. -/
def trimJs (s : String) : String :=
  String.mk (((s.toList.dropWhile Char.isWhitespace).reverse.dropWhile
    Char.isWhitespace).reverse)

/-- Digits at the front of a character list, read as a natural number;
none when the list does not start with a digit (JS NaN). -/
def natOfDigits (cs : List Char) : Option Nat :=
  let ds := cs.takeWhile Char.isDigit
  if ds.isEmpty then none
  else some (ds.foldl (fun a c => a * 10 + (c.toNat - 48)) 0)

/-- A digits-only string read as a natural number; none otherwise. -/
def strToNat? (s : String) : Option Nat :=
  if !s.toList.isEmpty && s.toList.all Char.isDigit then
    natOfDigits s.toList
  else none

/-- JavaScript parseInt on a string (base 10): skip surrounding
whitespace, read an optional sign and then leading digits; none models
NaN, which compares unequal to every number. -/
def parseIntJs (s : String) : Option Int :=
  match (trimJs s).toList with
  | '-' :: rest => (natOfDigits rest).map (fun n => -(n : Int))
  | '+' :: rest => (natOfDigits rest).map (fun n => (n : Int))
  | cs => (natOfDigits cs).map (fun n => (n : Int))

/-- Property access on a JS object modelled as an association list:
the value stored under the key, if any. -/
def lookupField (l : List (String × String)) (k : String) : Option String :=
  List.lookup k l

/-- Extraction of the bearer token from the authorization header, as
written in the middleware: authHeader and-then authHeader.split(' ')[1].
A missing header, a header without a second space-separated part, or an
empty second part all leave the token falsy. -/
def extractBearer : Option String → Option String
  | none => none
  | some h =>
    if h == "" then none
    else
      match (jsSplit ' ' h).get? 1 with
      | none => none
      | some t => if t == "" then none else some t

/-! ## JWT model (jsonwebtoken sign and verify, idealized) -/

/-- Payload of a JWT issued by the application: the claims the code
signs ({id, email, role}) plus the iat and exp timestamps added by the
library (exp = iat + 24h when signed with expiresIn 24h). -/
structure TokenPayload where
  id : Nat
  email : String
  role : String
  iat : Nat
  exp : Nat
  deriving Repr, DecidableEq

/-- A decoded token: a payload together with its signature string. -/
structure Token where
  payload : TokenPayload
  sig : String
  deriving Repr, DecidableEq

/-- Idealized message-authentication code: the signature a given secret
produces over a given payload.  Modelled as an injective tagging of the
secret and the payload fields; the model makes signatures unforgeable
(a signature verifies only for the exact secret and payload). -/
def mkSig (secret : String) (p : TokenPayload) : String :=
  secret ++ "#" ++ toString p.id ++ "#" ++ p.email ++ "#" ++ p.role ++ "#"
    ++ toString p.iat ++ "#" ++ toString p.exp

/-- jwt.sign({id, email, role}, secret, {expiresIn: '24h'}) at clock
time now: the library stamps iat = now and exp = now + 86400 seconds. -/
def signToken (secret : String) (id : Nat) (email role : String) (now : Nat) :
    Token :=
  let p : TokenPayload := ⟨id, email, role, now, now + 86400⟩
  ⟨p, mkSig secret p⟩

/-- Rejection reasons of jwt.verify: TokenExpiredError and
JsonWebTokenError (malformed token or invalid signature). -/
inductive VerifyErr where
  | expired
  | invalid
  deriving Repr, DecidableEq

/-- jwt.verify on a decoded token: the signature is checked first
(JsonWebTokenError on mismatch); only a token whose signature verified
is then tested against the clock, and it is expired when exp <= now. -/
def jwtVerify (secret : String) (now : Nat) (t : Token) :
    Except VerifyErr TokenPayload :=
  if t.sig ≠ mkSig secret t.payload then .error .invalid
  else if t.payload.exp ≤ now then .error .expired
  else .ok t.payload

/-- Serialization of a token into the wire string carried in responses
and in the authorization header. -/
def encodeToken (t : Token) : String :=
  toString t.payload.id ++ "." ++ t.payload.email ++ "." ++ t.payload.role
    ++ "." ++ toString t.payload.iat ++ "." ++ toString t.payload.exp
    ++ "." ++ t.sig

/-- Parsing of a token string back into a payload and signature; none
models the jwt-malformed case (JsonWebTokenError). -/
def decodeToken (s : String) : Option Token :=
  match jsSplit '.' s with
  | [i, e, r, ia, ex, sg] =>
    match strToNat? i, strToNat? ia, strToNat? ex with
    | some id, some iat, some exp => some ⟨⟨id, e, r, iat, exp⟩, sg⟩
    | _, _, _ => none
  | _ => none

/-! ## Middleware (shared middleware module) -/

/-- The identity context the verifier attaches to the request scope:
req.user = {id, email, role}. -/
structure ReqUser where
  id : Nat
  email : String
  role : String
  deriving Repr, DecidableEq

/-- Outcome of an Express middleware in this embedding: an early
response with a status and machine-readable code, next() with req.user
set to a given identity, or next() without touching req.user. -/
inductive MwResult where
  | reject (status : Nat) (code : String)
  | proceedWith (u : ReqUser)
  | proceedNoUser
  deriving Repr, DecidableEq

namespace Middleware

/-- The authenticateToken middleware of the shared middleware module:
missing token yields 401 TOKEN_REQUIRED; a token that fails to decode
or whose signature is invalid yields 403 TOKEN_INVALID; a token whose
signature verified but whose exp has passed yields 403 TOKEN_EXPIRED;
otherwise req.user := {id, email, role} from the payload and next(). -/
def authenticateToken (hdr : Option String) (secret : String) (now : Nat) :
    MwResult :=
  match extractBearer hdr with
  | none => .reject 401 "TOKEN_REQUIRED"
  | some ts =>
    match decodeToken ts with
    | none => .reject 403 "TOKEN_INVALID"
    | some t =>
      match jwtVerify secret now t with
      | .error .expired => .reject 403 "TOKEN_EXPIRED"
      | .error .invalid => .reject 403 "TOKEN_INVALID"
      | .ok p => .proceedWith ⟨p.id, p.email, p.role⟩

/-- The requireAdmin middleware: 401 AUTH_REQUIRED without req.user,
403 ADMIN_REQUIRED unless req.user.role is admin. -/
def requireAdmin (user : Option ReqUser) : MwResult :=
  match user with
  | none => .reject 401 "AUTH_REQUIRED"
  | some u =>
    if u.role ≠ "admin" then .reject 403 "ADMIN_REQUIRED"
    else .proceedWith u

/-- A request as the ownership guard sees it: the identity context set
by the verifier (if any), and the request body and route parameters as
string-valued objects. -/
structure OwnReq where
  user : Option ReqUser
  body : List (String × String)
  params : List (String × String)

/-- The owner-id value the guard reads for a field name:
req.body[field] or-else req.params[field]. -/
def ownerIdOf (field : String) (r : OwnReq) : Option String :=
  jsOrStr (lookupField r.body field) (lookupField r.params field)

/-- The requireOwnership(field) middleware of the shared middleware
module: 401 AUTH_REQUIRED without req.user; then, when the owner-id
value read from body or params is truthy and parseInt of it differs
from req.user.id, 403 OWNERSHIP_REQUIRED; in every other case next().
The code contains no role check: an admin identity is treated exactly
like any other identity here. -/
def requireOwnership (field : String) (r : OwnReq) : MwResult :=
  match r.user with
  | none => .reject 401 "AUTH_REQUIRED"
  | some u =>
    let rid := ownerIdOf field r
    if truthyStr rid && (parseIntJs (rid.getD "") != some (u.id : Int)) then
      .reject 403 "OWNERSHIP_REQUIRED"
    else
      .proceedWith u

/-- The optionalAuth middleware: without a token, next() untouched;
with a token, req.user is set only when verification succeeds, and
next() is called either way. -/
def optionalAuth (hdr : Option String) (secret : String) (now : Nat) :
    MwResult :=
  match extractBearer hdr with
  | none => .proceedNoUser
  | some ts =>
    match decodeToken ts with
    | none => .proceedNoUser
    | some t =>
      match jwtVerify secret now t with
      | .error _ => .proceedNoUser
      | .ok p => .proceedWith ⟨p.id, p.email, p.role⟩

end Middleware

namespace DraftRoutes

/-- The local authenticateToken placeholder of the draft auth route
module: a missing token yields 401 with the error text of the draft;
for any extracted token the verification block is commented out and the
function falls through to a bare next(), never setting req.user. -/
def authenticateToken (hdr : Option String) : MwResult :=
  match extractBearer hdr with
  | none => .reject 401 "Access token required"
  | some _ => .proceedNoUser

end DraftRoutes

/-! ## bcrypt model, user store and JSON responses -/

/-- Idealized bcrypt.hash with the fixed work factor of the code (12
salt rounds): a one-way tagging determined by the plaintext. -/
def bcryptHash (plain : String) : String :=
  "bcrypt12$" ++ plain

/-- Idealized bcrypt.compare: succeeds exactly when the hash was
produced from the given plaintext. -/
def bcryptCompare (plain hash : String) : Bool :=
  hash == bcryptHash plain

/-- A row of the users table, with the columns the auth handlers read
or write.  social_links is carried as an opaque serialized value. -/
structure UserRecord where
  id : Nat
  name : String
  email : String
  password_hash : String
  bio : Option String
  avatar_url : Option String
  location : Option String
  website_url : Option String
  social_links : Option String
  role : String
  created_at : Nat
  updated_at : Nat
  deriving Repr, DecidableEq

/-- The users table plus the id sequence. -/
structure Store where
  users : List UserRecord
  nextId : Nat
  deriving Repr, DecidableEq

/-- JSON values, for the response bodies the handlers build. -/
inductive Json where
  | null
  | bool (b : Bool)
  | nat (n : Nat)
  | str (s : String)
  | arr (xs : List Json)
  | obj (fields : List (String × Json))

/-- Fuel-bounded search for an object key anywhere in a JSON tree; the
fuel strictly dominates the nesting depth of every response body built
in this file. -/
def hasKeyFuel (k : String) : Nat → Json → Bool
  | 0, _ => false
  | fuel + 1, .obj fs => fs.any (fun p => p.1 == k || hasKeyFuel k fuel p.2)
  | fuel + 1, .arr xs => xs.any (fun j => hasKeyFuel k fuel j)
  | _ + 1, _ => false

/-- Whether an object key occurs anywhere in a response body (all
bodies in this file nest fewer than 16 levels deep). -/
def Json.hasKey (j : Json) (k : String) : Bool :=
  hasKeyFuel k 16 j

/-- JSON rendering of a nullable string column (null when absent). -/
def jsonOfOptStr : Option String → Json
  | none => .null
  | some s => .str s

/-- An HTTP response: status code and JSON body. -/
structure HttpResponse where
  status : Nat
  body : Json

/-! ## Validation (express-validator chains, modelled) -/

/-- A registration request body. -/
structure RegisterReq where
  name : String
  email : String
  password : String
  bio : Option String
  deriving Repr, DecidableEq

/-- Name rule of the registration validation chain: trimmed length
between 2 and 50. -/
def nameOk (s : String) : Bool :=
  2 ≤ (trimJs s).length && (trimJs s).length ≤ 50

/-- Email format rule.  Modelled (simplified) from the external
validator: a nonempty local part, one at-sign, and a domain containing
a dot. -/
def emailFormatOk (s : String) : Bool :=
  match jsSplit '@' s with
  | [l, d] => !l.toList.isEmpty && d.toList.contains '.' && !d.toList.isEmpty
  | _ => false

/-- Email normalization applied by the validation chain, modelled as
lower-casing. -/
def normalizeEmail (s : String) : String :=
  String.mk (s.toList.map Char.toLower)

/-- Password rule of the registration chain: at least 6 characters,
with a lower-case letter, an upper-case letter and a digit. -/
def passwordStrongOk (p : String) : Bool :=
  6 ≤ p.length && p.toList.any Char.isLower && p.toList.any Char.isUpper
    && p.toList.any Char.isDigit

/-- Optional bio rule: at most 500 characters after trimming. -/
def bioOk : Option String → Bool
  | none => true
  | some b => (trimJs b).length ≤ 500

/-- Messages of the failed registration rules, in chain order; the
registration handler returns them as field-level details. -/
def registerValidationErrors (r : RegisterReq) : List String :=
  (if nameOk r.name then [] else
    ["Name must be between 2 and 50 characters"])
  ++ (if emailFormatOk r.email then [] else
    ["Please provide a valid email address"])
  ++ (if passwordStrongOk r.password then [] else
    ["Password must be at least 6 characters long or is not strong enough"])
  ++ (if bioOk r.bio then [] else
    ["Bio must not exceed 500 characters"])

/-- Messages of the failed login rules, in chain order. -/
def loginValidationErrors (email password : String) : List String :=
  (if emailFormatOk email then [] else
    ["Please provide a valid email address"])
  ++ (if password == "" then ["Password is required"] else [])

/-- The 400 body both auth handlers return on validation failure. -/
def validationFailedBody (details : List String) : Json :=
  .obj [("success", .bool false), ("error", .str "Validation failed"),
        ("details", .arr (details.map (fun m => .obj [("msg", .str m)])))]

/-! ## Auth route handlers (completed auth route draft) -/

namespace AuthRoutes

/-- The token both register and login issue for a user record: the
signed {id, email, role} claims with a 24h expiry. -/
def issuedToken (secret : String) (u : UserRecord) (now : Nat) : Token :=
  signToken secret u.id u.email u.role now

/-- The user object of the register and login success bodies: exactly
the columns of the RETURNING list and login SELECT that the handlers
copy — id, name, email, bio, role, created_at; the password hash is
not among them. -/
def publicUserJson (u : UserRecord) : Json :=
  .obj [("id", .nat u.id), ("name", .str u.name), ("email", .str u.email),
        ("bio", jsonOfOptStr u.bio), ("role", .str u.role),
        ("created_at", .nat u.created_at)]

/-- The user object of the me success body: the columns of the me
SELECT list (password_hash excluded by the query). -/
def meUserJson (u : UserRecord) : Json :=
  .obj [("id", .nat u.id), ("name", .str u.name), ("email", .str u.email),
        ("bio", jsonOfOptStr u.bio),
        ("avatar_url", jsonOfOptStr u.avatar_url),
        ("location", jsonOfOptStr u.location),
        ("website_url", jsonOfOptStr u.website_url),
        ("social_links", jsonOfOptStr u.social_links),
        ("role", .str u.role), ("created_at", .nat u.created_at),
        ("updated_at", .nat u.updated_at)]

/-- POST register: validate; 409 when a row with the (normalized)
email exists, leaving the store untouched; otherwise hash the
password, insert the row, sign a token and answer 201 with the public
user object and the token. -/
def registerHandler (store : Store) (r : RegisterReq) (secret : String)
    (now : Nat) : Store × HttpResponse :=
  let errs := registerValidationErrors r
  if !errs.isEmpty then
    (store, ⟨400, validationFailedBody errs⟩)
  else
    let email := normalizeEmail r.email
    if store.users.any (fun u => u.email == email) then
      (store,
       ⟨409, .obj [("success", .bool false),
                   ("error", .str "User already exists"),
                   ("message", .str "An account with this email address already exists")]⟩)
    else
      let hash := bcryptHash r.password
      let bioVal :=
        match r.bio with
        | none => none
        | some b => if trimJs b == "" then none else some (trimJs b)
      let u : UserRecord :=
        { id := store.nextId, name := trimJs r.name, email := email,
          password_hash := hash, bio := bioVal, avatar_url := none,
          location := none, website_url := none, social_links := none,
          role := "member", created_at := now, updated_at := now }
      let store' : Store := ⟨store.users ++ [u], store.nextId + 1⟩
      let tok := issuedToken secret u now
      (store',
       ⟨201, .obj [("success", .bool true),
                   ("message", .str "User registered successfully"),
                   ("data", .obj [("user", publicUserJson u),
                                  ("token", .str (encodeToken tok))])]⟩)

/-- The 401 body login returns for an unknown email and for a failed
password comparison alike. -/
def invalidCredentialsBody : Json :=
  .obj [("success", .bool false), ("error", .str "Invalid credentials"),
        ("message", .str "Email or password is incorrect")]

/-- POST login: validate; 401 invalid credentials when no row matches
the email or the bcrypt comparison fails; otherwise sign a token and
answer 200 with the public user object and the token. -/
def loginHandler (store : Store) (email password : String) (secret : String)
    (now : Nat) : HttpResponse :=
  let errs := loginValidationErrors email password
  if !errs.isEmpty then
    ⟨400, validationFailedBody errs⟩
  else
    match store.users.find? (fun u => u.email == normalizeEmail email) with
    | none => ⟨401, invalidCredentialsBody⟩
    | some u =>
      if !bcryptCompare password u.password_hash then
        ⟨401, invalidCredentialsBody⟩
      else
        let tok := issuedToken secret u now
        ⟨200, .obj [("success", .bool true),
                    ("message", .str "Login successful"),
                    ("data", .obj [("user", publicUserJson u),
                                   ("token", .str (encodeToken tok))])]⟩

/-- GET me: look up the authenticated id; 404 when the row is gone,
otherwise 200 with the me SELECT columns. -/
def meHandler (store : Store) (userId : Nat) : HttpResponse :=
  match store.users.find? (fun u => u.id == userId) with
  | none =>
    ⟨404, .obj [("success", .bool false), ("error", .str "User not found"),
                ("message", .str "The authenticated user could not be found")]⟩
  | some u =>
    ⟨200, .obj [("success", .bool true),
                ("data", .obj [("user", meUserJson u)])]⟩

end AuthRoutes

/-! ## Transactions (database configuration module) -/

/-- A pooled pg client: the committed database state, the working state
of an open transaction (if any), and how often release() ran. -/
structure PgClient (σ : Type) where
  committed : σ
  txn : Option σ
  released : Nat
  deriving Repr, DecidableEq

/-- BEGIN: open a transaction whose working state starts from the
committed state. -/
def clientBegin {σ : Type} (c : PgClient σ) : PgClient σ :=
  { c with txn := some c.committed }

/-- COMMIT: publish the working state of the open transaction. -/
def clientCommit {σ : Type} (c : PgClient σ) : PgClient σ :=
  match c.txn with
  | some s => { c with committed := s, txn := none }
  | none => c

/-- ROLLBACK: discard the working state of the open transaction. -/
def clientRollback {σ : Type} (c : PgClient σ) : PgClient σ :=
  { c with txn := none }

/-- client.release(): hand the client back to the pool. -/
def clientRelease {σ : Type} (c : PgClient σ) : PgClient σ :=
  { c with released := c.released + 1 }

/-- Run the caller's callback against the client's open transaction:
its queries read and write the working state, or raise an error. -/
def runCallback {σ α ε : Type} (c : PgClient σ)
    (cb : σ → Except ε (α × σ)) : Except ε (α × PgClient σ) :=
  match cb (c.txn.getD c.committed) with
  | .ok (a, s1) => .ok (a, { c with txn := some s1 })
  | .error e => .error e

/-- executeTransaction of the database configuration module: connect,
BEGIN, run the callback; COMMIT and return its result on success,
ROLLBACK and rethrow on error; release the client in the finally block
of both paths. -/
def executeTransaction {σ α ε : Type} (db : σ) (cb : σ → Except ε (α × σ)) :
    Except ε α × PgClient σ :=
  let c := PgClient.mk db none 0
  let c := clientBegin c
  match runCallback c cb with
  | .ok (a, c1) => (.ok a, clientRelease (clientCommit c1))
  | .error e => (.error e, clientRelease (clientRollback c))

/-! ## Sample data for concrete witnesses -/

/-- A concrete user row, as registration would store it. -/
def sampleUser : UserRecord :=
  { id := 1, name := "Alice", email := "a@x.com",
    password_hash := bcryptHash "Abcde1", bio := none, avatar_url := none,
    location := none, website_url := none, social_links := none,
    role := "member", created_at := 0, updated_at := 0 }

/-- A concrete store holding the sample user. -/
def sampleStore : Store :=
  ⟨[sampleUser], 2⟩

/-! ## Theorems -/

/-- Helper: a nullable string column rendered as JSON never
contributes an object key. -/
lemma hasKeyFuel_jsonOfOptStr (k : String) (n : Nat) (o : Option String) :
    hasKeyFuel k (n + 1) (jsonOfOptStr o) = false := by
  cases o <;> simp [jsonOfOptStr, hasKeyFuel]

/-- C3: for every identity record, the token register and login issue,
when verified immediately with the same secret, yields a payload whose
id, email and role equal the record's, and its expiry timestamp equals
its issued-at timestamp plus 24 hours (86400 seconds). -/
theorem issued_token_roundtrip (secret : String) (u : UserRecord) (now : Nat) :
    jwtVerify secret now (AuthRoutes.issuedToken secret u now)
      = .ok ⟨u.id, u.email, u.role, now, now + 86400⟩
    ∧ (AuthRoutes.issuedToken secret u now).payload.exp
      = (AuthRoutes.issuedToken secret u now).payload.iat + 86400 := by
  have h : ¬ (now + 86400 ≤ now) := by omega
  exact ⟨by simp [AuthRoutes.issuedToken, signToken, jwtVerify, mkSig, h], rfl⟩

/-- C5: the token verifier answers 401 TOKEN_REQUIRED whenever no
bearer token can be extracted from the authorization header, and for a
token that decodes and verifies it attaches the identity context
{id, email, role} taken from the payload and continues. -/
theorem authenticateToken_missing_and_valid (hdr : Option String)
    (secret : String) (now : Nat) :
    (extractBearer hdr = none →
      Middleware.authenticateToken hdr secret now
        = .reject 401 "TOKEN_REQUIRED")
    ∧ (∀ ts t, extractBearer hdr = some ts → decodeToken ts = some t →
      jwtVerify secret now t = .ok t.payload →
      Middleware.authenticateToken hdr secret now
        = .proceedWith ⟨t.payload.id, t.payload.email, t.payload.role⟩) := by
  constructor
  · intro h
    simp [Middleware.authenticateToken, h]
  · intro ts t hts ht hv
    simp [Middleware.authenticateToken, hts, ht, hv]

/-- C5 witness: a missing header is rejected with 401, and a concrete
valid token proceeds with the identity from its payload. -/
theorem authenticateToken_missing_and_valid_witness :
    Middleware.authenticateToken none "s" 0 = .reject 401 "TOKEN_REQUIRED"
    ∧ Middleware.authenticateToken
        (some "Bearer 1.e.member.0.86400.s#1#e#member#0#86400") "s" 0
      = .proceedWith ⟨1, "e", "member"⟩ :=
  ⟨(authenticateToken_missing_and_valid none "s" 0).1 rfl,
   (authenticateToken_missing_and_valid
      (some "Bearer 1.e.member.0.86400.s#1#e#member#0#86400") "s" 0).2
     "1.e.member.0.86400.s#1#e#member#0#86400"
     ⟨⟨1, "e", "member", 0, 86400⟩, "s#1#e#member#0#86400"⟩ rfl rfl rfl⟩

/-- C2 counterexample: a concrete bearer token whose expiry has passed
(exp = 10, clock = 100) but whose signature does not verify is
rejected with the invalid code, not the expired one, so the claim as
stated fails for it. -/
theorem expired_forged_token_rejected_invalid :
    decodeToken "1.e.member.0.10.bad"
      = some ⟨⟨1, "e", "member", 0, 10⟩, "bad"⟩
    ∧ (⟨⟨1, "e", "member", 0, 10⟩, "bad"⟩ : Token).payload.exp ≤ 100
    ∧ Middleware.authenticateToken (some "Bearer 1.e.member.0.10.bad") "s" 100
      = .reject 403 "TOKEN_INVALID" :=
  ⟨rfl, by norm_num, rfl⟩

/-- C2 (amended): a bearer token whose signature verifies and whose
expiry has passed is rejected with TOKEN_EXPIRED; a token that fails
to decode, or whose signature does not verify, is rejected with
TOKEN_INVALID; the two codes are distinct. -/
theorem authenticateToken_expired_vs_invalid (secret : String) (now : Nat)
    (hdr : Option String) (ts : String) (hex : extractBearer hdr = some ts) :
    (∀ t, decodeToken ts = some t → t.sig = mkSig secret t.payload →
      t.payload.exp ≤ now →
      Middleware.authenticateToken hdr secret now
        = .reject 403 "TOKEN_EXPIRED")
    ∧ (decodeToken ts = none →
      Middleware.authenticateToken hdr secret now
        = .reject 403 "TOKEN_INVALID")
    ∧ (∀ t, decodeToken ts = some t → t.sig ≠ mkSig secret t.payload →
      Middleware.authenticateToken hdr secret now
        = .reject 403 "TOKEN_INVALID")
    ∧ "TOKEN_EXPIRED" ≠ "TOKEN_INVALID" := by
  refine ⟨?_, ?_, ?_, by decide⟩
  · intro t ht hsig hexp
    simp [Middleware.authenticateToken, hex, ht, jwtVerify, hsig, hexp]
  · intro ht
    simp [Middleware.authenticateToken, hex, ht]
  · intro t ht hsig
    simp [Middleware.authenticateToken, hex, ht, jwtVerify, hsig]

/-- C2 witness: a concrete validly signed token with exp = 10 at clock
100 is rejected with TOKEN_EXPIRED. -/
theorem authenticateToken_expired_vs_invalid_witness :
    Middleware.authenticateToken
      (some "Bearer 1.e.member.0.10.s#1#e#member#0#10") "s" 100
      = .reject 403 "TOKEN_EXPIRED" :=
  (authenticateToken_expired_vs_invalid "s" 100
      (some "Bearer 1.e.member.0.10.s#1#e#member#0#10")
      "1.e.member.0.10.s#1#e#member#0#10" rfl).1
    ⟨⟨1, "e", "member", 0, 10⟩, "s#1#e#member#0#10"⟩ rfl rfl (by norm_num)

/-- C8: for every callback passed to executeTransaction, a successful
callback has its writes committed and its result returned, a failing
callback is rolled back (committed state unchanged) before the error
is rethrown, and the pooled client is released exactly once on both
paths. -/
theorem executeTransaction_spec {σ α ε : Type} (db : σ)
    (cb : σ → Except ε (α × σ)) :
    (∀ a s, cb db = .ok (a, s) →
      executeTransaction db cb = (.ok a, ⟨s, none, 1⟩))
    ∧ (∀ e, cb db = .error e →
      executeTransaction db cb = (.error e, ⟨db, none, 1⟩))
    ∧ (executeTransaction db cb).2.released = 1 := by
  refine ⟨?_, ?_, ?_⟩
  · intro a s h
    simp [executeTransaction, runCallback, clientBegin, clientCommit,
      clientRelease, h]
  · intro e h
    simp [executeTransaction, runCallback, clientBegin, clientRollback,
      clientRelease, h]
  · cases h : cb db with
    | ok v =>
      simp [executeTransaction, runCallback, clientBegin, clientCommit,
        clientRelease, h]
    | error e =>
      simp [executeTransaction, runCallback, clientBegin, clientRollback,
        clientRelease, h]

/-- C8 witness: a concrete succeeding callback commits its write and
returns its result, and a concrete throwing callback leaves the
committed state unchanged; the client is released once in both runs. -/
theorem executeTransaction_spec_witness :
    @executeTransaction Nat Nat String 0 (fun s => .ok (7, s + 1))
      = (.ok 7, ⟨1, none, 1⟩)
    ∧ @executeTransaction Nat Nat String 0 (fun _ => .error "boom")
      = (.error "boom", ⟨0, none, 1⟩) :=
  ⟨(executeTransaction_spec 0 (fun s => .ok (7, s + 1))).1 7 1 rfl,
   (executeTransaction_spec 0 (fun _ => .error "boom")).2.1 "boom" rfl⟩

/-- C10: the draft route module's local authenticateToken rejects a
request without a bearer token with 401, and for every request from
which a token string is extracted it calls next() without setting any
identity context and without verifying anything. -/
theorem draft_authenticateToken_spec (hdr : Option String) :
    (extractBearer hdr = none →
      DraftRoutes.authenticateToken hdr
        = .reject 401 "Access token required")
    ∧ (∀ ts, extractBearer hdr = some ts →
      DraftRoutes.authenticateToken hdr = .proceedNoUser) := by
  constructor
  · intro h
    simp [DraftRoutes.authenticateToken, h]
  · intro ts h
    simp [DraftRoutes.authenticateToken, h]

/-- C10 witness: a concrete garbage token passes straight through the
draft middleware, and a missing token is rejected with 401. -/
theorem draft_authenticateToken_spec_witness :
    DraftRoutes.authenticateToken (some "Bearer notevenatoken")
      = .proceedNoUser
    ∧ DraftRoutes.authenticateToken none
      = .reject 401 "Access token required" :=
  ⟨(draft_authenticateToken_spec (some "Bearer notevenatoken")).2
      "notevenatoken" rfl,
   (draft_authenticateToken_spec none).1 rfl⟩

/-- C1 counterexample: an admin identity (role admin) whose id (2)
differs from the owner id carried by the request (1) is rejected with
403 OWNERSHIP_REQUIRED, although the claim promises a role-based
override for admins; requireOwnership contains no role check. -/
theorem requireOwnership_admin_not_exempt :
    (⟨2, "admin@x.com", "admin"⟩ : ReqUser).role = "admin"
    ∧ Middleware.requireOwnership "user_id"
        ⟨some ⟨2, "admin@x.com", "admin"⟩, [("user_id", "1")], []⟩
      = .reject 403 "OWNERSHIP_REQUIRED" :=
  ⟨rfl, rfl⟩

/-- C1 (amended): for every request with an attached identity context
and a truthy owner-id value under the configured field, the ownership
guard allows the request if and only if parseInt of that value equals
identity.id — independent of the identity's role, admin included — and
in every other case rejects with 403 OWNERSHIP_REQUIRED. -/
theorem requireOwnership_no_role_override (field : String)
    (r : Middleware.OwnReq) (u : ReqUser) (hu : r.user = some u)
    (s : String) (hs : Middleware.ownerIdOf field r = some s)
    (hne : s ≠ "") :
    (Middleware.requireOwnership field r = .proceedWith u
      ↔ parseIntJs s = some (u.id : Int))
    ∧ (parseIntJs s ≠ some (u.id : Int) →
      Middleware.requireOwnership field r
        = .reject 403 "OWNERSHIP_REQUIRED") := by
  have key : Middleware.requireOwnership field r
      = if parseIntJs s = some (u.id : Int) then .proceedWith u
        else .reject 403 "OWNERSHIP_REQUIRED" := by
    simp only [Middleware.requireOwnership, hu, hs]
    by_cases hp : parseIntJs s = some (u.id : Int)
    · simp [truthyStr, hne, hp]
    · simp [truthyStr, hne, hp]
  by_cases hp : parseIntJs s = some (u.id : Int)
  · rw [key, if_pos hp]
    exact ⟨⟨fun _ => hp, fun _ => rfl⟩, fun h => absurd hp h⟩
  · rw [key, if_neg hp]
    exact ⟨⟨fun h => by simp at h, fun h => absurd h hp⟩, fun _ => rfl⟩

/-- C1 witness: the guard lets the owner (id 1, owner id "1") through
and rejects a non-owner member (id 2) with 403. -/
theorem requireOwnership_no_role_override_witness :
    Middleware.requireOwnership "user_id"
      ⟨some ⟨1, "a@x.com", "member"⟩, [("user_id", "1")], []⟩
      = .proceedWith ⟨1, "a@x.com", "member"⟩
    ∧ Middleware.requireOwnership "user_id"
      ⟨some ⟨2, "b@x.com", "member"⟩, [("user_id", "1")], []⟩
      = .reject 403 "OWNERSHIP_REQUIRED" :=
  ⟨(requireOwnership_no_role_override "user_id"
      ⟨some ⟨1, "a@x.com", "member"⟩, [("user_id", "1")], []⟩
      ⟨1, "a@x.com", "member"⟩ rfl "1" rfl (by decide)).1.mpr (by decide),
   (requireOwnership_no_role_override "user_id"
      ⟨some ⟨2, "b@x.com", "member"⟩, [("user_id", "1")], []⟩
      ⟨2, "b@x.com", "member"⟩ rfl "1" rfl (by decide)).2 (by decide)⟩

/-- C9: for every authenticated request in which the owner-id value
under the configured field is absent or falsy in both body and params,
requireOwnership proceeds to the handler, and its 403 rejection is
reachable only when the request carries a truthy owner-id value. -/
theorem requireOwnership_absent_owner_id (field : String)
    (r : Middleware.OwnReq) (u : ReqUser) (hu : r.user = some u) :
    (truthyStr (Middleware.ownerIdOf field r) = false →
      Middleware.requireOwnership field r = .proceedWith u)
    ∧ (Middleware.requireOwnership field r
        = .reject 403 "OWNERSHIP_REQUIRED" →
      truthyStr (Middleware.ownerIdOf field r) = true) := by
  constructor
  · intro h
    simp [Middleware.requireOwnership, hu, h]
  · intro h
    cases ht : truthyStr (Middleware.ownerIdOf field r) with
    | false => simp [Middleware.requireOwnership, hu, ht] at h
    | true => rfl

/-- C9 witness: with no user_id value in body or params (only an
unrelated id param), the guard proceeds for a concrete member. -/
theorem requireOwnership_absent_owner_id_witness :
    Middleware.requireOwnership "user_id"
      ⟨some ⟨7, "c@x.com", "member"⟩, [], [("id", "5")]⟩
      = .proceedWith ⟨7, "c@x.com", "member"⟩ :=
  (requireOwnership_absent_owner_id "user_id"
      ⟨some ⟨7, "c@x.com", "member"⟩, [], [("id", "5")]⟩
      ⟨7, "c@x.com", "member"⟩ rfl).1 rfl

/-- C4: no response of register, login or me — on any path, for any
store and input — carries a password_hash key (or a password key)
anywhere in its body: the stored hash never flows into client-visible
output. -/
theorem auth_responses_never_contain_password_hash (store : Store)
    (r : RegisterReq) (email password secret : String) (now userId : Nat) :
    ((AuthRoutes.registerHandler store r secret now).2.body.hasKey
        "password_hash" = false
      ∧ (AuthRoutes.registerHandler store r secret now).2.body.hasKey
        "password" = false)
    ∧ ((AuthRoutes.loginHandler store email password secret now).body.hasKey
        "password_hash" = false
      ∧ (AuthRoutes.loginHandler store email password secret now).body.hasKey
        "password" = false)
    ∧ ((AuthRoutes.meHandler store userId).body.hasKey
        "password_hash" = false
      ∧ (AuthRoutes.meHandler store userId).body.hasKey
        "password" = false) := by
  have hreg : ∀ k, k = "password_hash" ∨ k = "password" →
      (AuthRoutes.registerHandler store r secret now).2.body.hasKey k
        = false := by
    rintro k (rfl | rfl) <;>
    · cases herrs : registerValidationErrors r with
      | cons e es =>
        simp [AuthRoutes.registerHandler, herrs, validationFailedBody,
          Json.hasKey, hasKeyFuel, List.any_map, Function.comp]
      | nil =>
        cases hdup : store.users.any
            (fun u => u.email == normalizeEmail r.email) with
        | true =>
          simp [AuthRoutes.registerHandler, herrs, hdup, Json.hasKey,
            hasKeyFuel]
        | false =>
          simp [AuthRoutes.registerHandler, herrs, hdup, Json.hasKey,
            hasKeyFuel, AuthRoutes.publicUserJson, hasKeyFuel_jsonOfOptStr]
  have hlog : ∀ k, k = "password_hash" ∨ k = "password" →
      (AuthRoutes.loginHandler store email password secret now).body.hasKey k
        = false := by
    rintro k (rfl | rfl) <;>
    · cases herrs : loginValidationErrors email password with
      | cons e es =>
        simp [AuthRoutes.loginHandler, herrs, validationFailedBody,
          Json.hasKey, hasKeyFuel, List.any_map, Function.comp]
      | nil =>
        cases hfind : store.users.find?
            (fun u => u.email == normalizeEmail email) with
        | none =>
          simp [AuthRoutes.loginHandler, herrs, hfind,
            AuthRoutes.invalidCredentialsBody, Json.hasKey, hasKeyFuel]
        | some u =>
          cases hcmp : bcryptCompare password u.password_hash with
          | false =>
            simp [AuthRoutes.loginHandler, herrs, hfind, hcmp,
              AuthRoutes.invalidCredentialsBody, Json.hasKey, hasKeyFuel]
          | true =>
            simp [AuthRoutes.loginHandler, herrs, hfind, hcmp, Json.hasKey,
              hasKeyFuel, AuthRoutes.publicUserJson, hasKeyFuel_jsonOfOptStr]
  have hme : ∀ k, k = "password_hash" ∨ k = "password" →
      (AuthRoutes.meHandler store userId).body.hasKey k = false := by
    rintro k (rfl | rfl) <;>
    · cases hfind : store.users.find? (fun u => u.id == userId) with
      | none => simp [AuthRoutes.meHandler, hfind, Json.hasKey, hasKeyFuel]
      | some u =>
        simp [AuthRoutes.meHandler, hfind, Json.hasKey, hasKeyFuel,
          AuthRoutes.meUserJson, hasKeyFuel_jsonOfOptStr]
  exact ⟨⟨hreg _ (Or.inl rfl), hreg _ (Or.inr rfl)⟩,
    ⟨hlog _ (Or.inl rfl), hlog _ (Or.inr rfl)⟩,
    ⟨hme _ (Or.inl rfl), hme _ (Or.inr rfl)⟩⟩

/-- C6: a registration that passes validation but whose normalized
email already has a row fails with 409, the store is returned
unchanged (no row inserted), and the conflict body carries no token
key. -/
theorem register_duplicate_email (store : Store) (r : RegisterReq)
    (secret : String) (now : Nat)
    (hval : registerValidationErrors r = [])
    (hdup : store.users.any (fun u => u.email == normalizeEmail r.email)
      = true) :
    (AuthRoutes.registerHandler store r secret now).1 = store
    ∧ (AuthRoutes.registerHandler store r secret now).2.status = 409
    ∧ (AuthRoutes.registerHandler store r secret now).2.body.hasKey "token"
      = false := by
  refine ⟨?_, ?_, ?_⟩ <;>
    simp [AuthRoutes.registerHandler, hval, hdup, Json.hasKey, hasKeyFuel]

/-- C6 witness: registering A@X.com into the sample store (which holds
a@x.com) answers 409, leaves the store unchanged and issues no
token. -/
theorem register_duplicate_email_witness :
    (AuthRoutes.registerHandler sampleStore ⟨"Bob", "A@X.com", "Abcde1", none⟩
      "s" 5).1 = sampleStore
    ∧ (AuthRoutes.registerHandler sampleStore
        ⟨"Bob", "A@X.com", "Abcde1", none⟩ "s" 5).2.status = 409
    ∧ (AuthRoutes.registerHandler sampleStore
        ⟨"Bob", "A@X.com", "Abcde1", none⟩ "s" 5).2.body.hasKey "token"
      = false :=
  register_duplicate_email sampleStore ⟨"Bob", "A@X.com", "Abcde1", none⟩
    "s" 5 rfl rfl

/-- C7: a login that passes validation answers 401 with the
invalid-credentials body when no row matches the email, and likewise
when a row matches but the password comparison fails; that body
carries no token key. -/
theorem login_invalid_credentials (store : Store)
    (email password secret : String) (now : Nat)
    (hval : loginValidationErrors email password = []) :
    (store.users.find? (fun u => u.email == normalizeEmail email) = none →
      AuthRoutes.loginHandler store email password secret now
        = ⟨401, AuthRoutes.invalidCredentialsBody⟩)
    ∧ (∀ u,
      store.users.find? (fun u => u.email == normalizeEmail email) = some u →
      bcryptCompare password u.password_hash = false →
      AuthRoutes.loginHandler store email password secret now
        = ⟨401, AuthRoutes.invalidCredentialsBody⟩)
    ∧ AuthRoutes.invalidCredentialsBody.hasKey "token" = false := by
  refine ⟨?_, ?_, by decide⟩
  · intro h
    simp [AuthRoutes.loginHandler, hval, h]
  · intro u h hcmp
    simp [AuthRoutes.loginHandler, hval, h, hcmp]

/-- C7 witness: in the sample store, logging in with an unknown email
and with a wrong password for the known email both answer 401 with the
invalid-credentials body. -/
theorem login_invalid_credentials_witness :
    AuthRoutes.loginHandler sampleStore "b@x.com" "wrong" "s" 5
      = ⟨401, AuthRoutes.invalidCredentialsBody⟩
    ∧ AuthRoutes.loginHandler sampleStore "a@x.com" "wrong" "s" 5
      = ⟨401, AuthRoutes.invalidCredentialsBody⟩ :=
  ⟨(login_invalid_credentials sampleStore "b@x.com" "wrong" "s" 5 rfl).1 rfl,
   (login_invalid_credentials sampleStore "a@x.com" "wrong" "s" 5 rfl).2.1
     sampleUser rfl rfl⟩

end GigBuddy
